import Mathlib

/-!
Verification development for the intelligent-reminder call-relay service.

The definitions below are a shallow embedding of the Python sources under
`app/modules/` (`api.py`, `services.py`, `repositories.py`) plus the small
support modules. DynamoDB items are modelled as association lists of
attribute name/value pairs; the table is an association list keyed by
(partition key, sort key). Effectful steps (HTTP, websockets) are modelled
by explicit outcome parameters; byte strings are lists of natural numbers
below 256.
-/

set_option autoImplicit false

namespace IntelligentReminder

/-! ## Record Store (repositories.py `CallRepository`) -/

/-- A DynamoDB item: an association list of attribute name/value pairs
(all attributes relevant to the claims are strings). -/
abbrev Attrs := List (String × String)

/-- Primary key of the call table: partition key `PK` and sort key `SK`. -/
structure DbKey where
  pk : String
  sk : String
deriving DecidableEq, Repr

/-- The call table: items indexed by primary key. -/
abbrev Store := List (DbKey × Attrs)

/-- Set attribute `k` to `v` in an item, replacing an existing binding
(dict assignment / DynamoDB `SET` semantics for one attribute). -/
def setAttr : Attrs → String → String → Attrs
  | [], k, v => [(k, v)]
  | p :: rest, k, v => if p.1 = k then (k, v) :: rest else p :: setAttr rest k v

/-- Read attribute `k` from an item. -/
def getAttr : Attrs → String → Option String
  | [], _ => none
  | p :: rest, k => if p.1 = k then some p.2 else getAttr rest k

/-- Apply a list of `SET field = value` clauses to an item, left to right. -/
def applyUpdates (r : Attrs) (us : List (String × String)) : Attrs :=
  us.foldl (fun acc p => setAttr acc p.1 p.2) r

/-- Look up the item stored under `key`. -/
def lookupEntry (key : DbKey) : Store → Option Attrs
  | [] => none
  | e :: rest => if e.1 = key then some e.2 else lookupEntry key rest

/-- DynamoDB `update_item`: apply the `SET` clauses to the item under `key`,
creating the item when it does not exist yet. -/
def updateEntry (key : DbKey) (us : List (String × String)) : Store → Store
  | [] => [(key, applyUpdates [] us)]
  | e :: rest =>
    if e.1 = key then (key, applyUpdates e.2 us) :: rest
    else e :: updateEntry key us rest

/-- Partition key built by `CallRepository`:
`f"AICalling#{agent_id}#{date}"`, where a missing `agent_id` renders as
Python's `None`. -/
def pkOf (agentId : Option String) (date : String) : String :=
  "AICalling#" ++ (match agentId with | some a => a | none => "None") ++ "#" ++ date

/-- `CallRepository.update_ai_call_item` (repositories.py lines 41-85):
builds the key from agent id and the current date, mirrors a
`conversation_id` update into `GSI1PK`, and issues an unconditional
`SET` update. `today` stands for `datetime.now(...).strftime("%Y-%m-%d")`. -/
def update_ai_call_item (store : Store) (today : String) (destinationNumber : String)
    (agentId : Option String) (updates : List (String × String)) : Store :=
  let updates2 :=
    match getAttr updates "conversation_id" with
    | some cid => setAttr updates "GSI1PK" cid
    | none => updates
  updateEntry ⟨pkOf agentId today, destinationNumber⟩ updates2 store

/-- The `stage` attribute of the item stored under `key`, if any. -/
def stageOf (store : Store) (key : DbKey) : Option String :=
  match lookupEntry key store with
  | some r => getAttr r "stage"
  | none => none

/-! ## Call status handling (services.py `ReminderService.handle_call_status`) -/

/-- The statuses for which `handle_call_status` writes to the store
(services.py line 255). -/
def failureStatuses : List String := ["busy", "no-answer", "failed", "canceled"]

/-- `ReminderService.handle_call_status` (services.py lines 251-259): when
the carrier status is one of the four failure statuses and the destination
number is truthy, unconditionally `SET stage = status` on the matching item;
otherwise do nothing. The empty string models a falsy `to_number`. -/
def handle_call_status (store : Store) (today : String) (toNumber : String)
    (status : String) (agentId : Option String) : Store :=
  if status ∈ failureStatuses then
    if toNumber ≠ "" then
      update_ai_call_item store today toNumber agentId [("stage", status)]
    else store
  else store

/-! ### Store lemmas -/

theorem getAttr_setAttr_self (r : Attrs) (k v : String) :
    getAttr (setAttr r k v) k = some v := by
  induction r with
  | nil => simp [setAttr, getAttr]
  | cons p rest ih =>
    by_cases h : p.1 = k
    · simp [setAttr, getAttr, h]
    · simp [setAttr, getAttr, h, ih]

theorem lookupEntry_updateEntry_self (key : DbKey) (us : List (String × String))
    (store : Store) :
    lookupEntry key (updateEntry key us store) =
      some (applyUpdates (match lookupEntry key store with
                          | some r => r
                          | none => []) us) := by
  induction store with
  | nil => simp [updateEntry, lookupEntry]
  | cons e rest ih =>
    by_cases h : e.1 = key
    · simp [updateEntry, lookupEntry, h]
    · simp [updateEntry, lookupEntry, h, ih]

theorem stageOf_update_stage (store : Store) (today dest s : String)
    (agentId : Option String) :
    stageOf (update_ai_call_item store today dest agentId [("stage", s)])
      ⟨pkOf agentId today, dest⟩ = some s := by
  have hconv : getAttr [("stage", s)] "conversation_id" = none := by
    simp [getAttr]
  unfold update_ai_call_item stageOf
  rw [hconv, lookupEntry_updateEntry_self]
  cases lookupEntry ⟨pkOf agentId today, dest⟩ store with
  | none => simpa [applyUpdates] using getAttr_setAttr_self [] "stage" s
  | some r => simpa [applyUpdates] using getAttr_setAttr_self r "stage" s

/-! ### C1, C2: status-callback effect on the stored stage -/

/-- C1 (counterexample): a record whose stage is the terminal state
`completed` is not a sink: a later carrier callback with status `busy`
overwrites the stored stage with `busy`, so processing a further status
event does change the stage of a terminal record. -/
theorem c1_terminal_sink_cex :
    stageOf
      (handle_call_status
        [(⟨"AICalling#agent1#2026-10-12", "+6598765432"⟩, [("stage", "completed")])]
        "2026-10-12" "+6598765432" "busy" (some "agent1"))
      ⟨"AICalling#agent1#2026-10-12", "+6598765432"⟩ = some "busy" ∧
    ("busy" : String) ≠ "completed" := by
  constructor
  · decide
  · decide

/-- C1 (amended): terminal states are not sinks. Processing a further
carrier status callback for a record leaves the stored stage unchanged
exactly when the incoming status is not one of `busy`, `no-answer`,
`failed`, `canceled` (or the destination number is falsy); for those four
statuses the stage is unconditionally overwritten with the incoming status,
even when the record already sits in a terminal state. In both cases the
update is a no-op or a plain write, never an error. -/
theorem c1_terminal_overwrite (store : Store) (today toNumber status : String)
    (agentId : Option String) :
    (status ∉ failureStatuses →
      handle_call_status store today toNumber status agentId = store) ∧
    (toNumber = "" →
      handle_call_status store today toNumber status agentId = store) ∧
    (status ∈ failureStatuses → toNumber ≠ "" →
      stageOf (handle_call_status store today toNumber status agentId)
        ⟨pkOf agentId today, toNumber⟩ = some status) := by
  refine ⟨fun h => ?_, fun h => ?_, fun h h2 => ?_⟩
  · simp [handle_call_status, h]
  · simp [handle_call_status, h]
  · simp only [handle_call_status, if_pos h, if_pos h2]
    exact stageOf_update_stage store today toNumber status agentId

/-- C1 (witness for `c1_terminal_overwrite`). -/
theorem c1_terminal_overwrite_witness :
    stageOf
      (handle_call_status
        [(⟨"AICalling#agentW#2026-10-12", "+6511112222"⟩, [("stage", "completed")])]
        "2026-10-12" "+6511112222" "no-answer" (some "agentW"))
      ⟨"AICalling#agentW#2026-10-12", "+6511112222"⟩ = some "no-answer" :=
  (c1_terminal_overwrite
      [(⟨"AICalling#agentW#2026-10-12", "+6511112222"⟩, [("stage", "completed")])]
      "2026-10-12" "+6511112222" "no-answer" (some "agentW")).2.2
    (by decide) (by decide)

/-- C2 (counterexample): a carrier callback with status `ringing` (one of
the eight statuses, with destination number and agent id present) does not
update the matching record's stage: `handle_call_status` ignores it and the
stage remains `initiated`. -/
theorem c2_all_statuses_update_cex :
    stageOf
      (handle_call_status
        [(⟨"AICalling#agent1#2026-10-12", "+6598765432"⟩, [("stage", "initiated")])]
        "2026-10-12" "+6598765432" "ringing" (some "agent1"))
      ⟨"AICalling#agent1#2026-10-12", "+6598765432"⟩ = some "initiated" ∧
    ("initiated" : String) ≠ "ringing" := by
  constructor
  · decide
  · decide

/-- C2 (amended): handling a carrier status callback updates the matching
record's stage to the incoming status only for the four failure statuses
`busy`, `no-answer`, `failed`, `canceled` (given a truthy destination
number); callbacks carrying `initiated`, `ringing`, `answered` or
`completed` leave the record store entirely unchanged. -/
theorem c2_status_update_restricted (store : Store) (today toNumber : String)
    (status : String) (agentId : Option String) :
    (status ∈ (["initiated", "ringing", "answered", "completed"] : List String) →
      handle_call_status store today toNumber status agentId = store) ∧
    (status ∈ failureStatuses → toNumber ≠ "" →
      stageOf (handle_call_status store today toNumber status agentId)
        ⟨pkOf agentId today, toNumber⟩ = some status) := by
  constructor
  · intro h
    have hne : status ∉ failureStatuses := by
      simp only [List.mem_cons, List.mem_singleton, List.not_mem_nil, or_false] at h
      rcases h with rfl | rfl | rfl | rfl <;> decide
    simp [handle_call_status, hne]
  · intro h h2
    simp only [handle_call_status, if_pos h, if_pos h2]
    exact stageOf_update_stage store today toNumber status agentId

/-- C2 (witness for `c2_status_update_restricted`). -/
theorem c2_status_update_restricted_witness :
    handle_call_status
      [(⟨"AICalling#agentW#2026-10-12", "+6533334444"⟩, [("stage", "initiated")])]
      "2026-10-12" "+6533334444" "answered" (some "agentW") =
      [(⟨"AICalling#agentW#2026-10-12", "+6533334444"⟩, [("stage", "initiated")])] :=
  (c2_status_update_restricted
      [(⟨"AICalling#agentW#2026-10-12", "+6533334444"⟩, [("stage", "initiated")])]
      "2026-10-12" "+6533334444" "answered" (some "agentW")).1 (by decide)

/-! ## Voice-AI link setup (services.py `ReminderService.setup_connection`) -/

/-- Modelled from the spec: `app/modules/constants.py` (the `CALL_STATUS`
mapping imported by `services.py`) is not among the provided sources. Per
the spec's stage enum and the `Failed` terminal state, the value written on
setup failure (`CALL_STATUS["call_failed"]`) is the stage string
`failed`. -/
def CALL_STATUS_call_failed : String := "failed"

/-- Modelled from the spec: the stage written at record creation
(`CALL_STATUS["call_initiated"]` in `create_call`) is the stage string
`initiated`, per the spec's stage enum. -/
def CALL_STATUS_call_initiated : String := "initiated"

/-- The custom parameters carried by the carrier `start` event and used by
`setup_connection` (`calling_to`, `agent_id`, `prompt`, `first_message`). -/
structure CustomParams where
  callingTo : String
  agentId : String
  prompt : String
  firstMessage : String
deriving DecidableEq, Repr

/-- The parsed initial message from the voice-AI connection. A `none`
conversation id models the `conversation_initiation_metadata_event` /
`conversation_id` keys being absent (a Python `KeyError` on access). -/
structure MetaMsg where
  msgType : String
  conversationId : Option String
deriving DecidableEq, Repr

/-- Errors that the effectful steps of `setup_connection` can raise. -/
inductive SetupErr
  | signedUrlErr
  | wsConnectErr
  | recvErr
  | metaJsonErr
  | metaKeyErr
  | sendConfigErr
deriving DecidableEq, Repr

/-- Outcomes of the external steps performed by `setup_connection`:
the signed-URL request (`get_signed_url`), the websocket connect, the
receive-and-parse of the initial metadata message, and the send of the
initial config. -/
structure SetupEnv where
  signedUrl : Except SetupErr String
  wsConnect : Except SetupErr Unit
  recvInitial : Except SetupErr MetaMsg
  sendConfig : Except SetupErr Unit

/-- The `except Exception` block of `setup_connection` (services.py lines
304-311): write `stage = CALL_STATUS["call_failed"]` for the record keyed
by the call's destination number and agent id. -/
def markFailed (store : Store) (today : String) (p : CustomParams) : Store :=
  update_ai_call_item store today p.callingTo (some p.agentId)
    [("stage", CALL_STATUS_call_failed)]

/-- `ReminderService.setup_connection` (services.py lines 273-311):
get the signed URL, connect the websocket, receive the initial metadata
message; when its type is `conversation_initiation_metadata`, read the
conversation id (a missing key raises) and store it; then send the initial
config and start the dispatch task. Any exception along the way lands in
the outer handler, which writes `stage = failed` and re-raises. Returns
the final store and the propagated outcome. -/
def setup_connection (env : SetupEnv) (p : CustomParams) (store : Store)
    (today : String) : Store × Except SetupErr Unit :=
  match env.signedUrl with
  | .error e => (markFailed store today p, .error e)
  | .ok _ =>
    match env.wsConnect with
    | .error e => (markFailed store today p, .error e)
    | .ok _ =>
      match env.recvInitial with
      | .error e => (markFailed store today p, .error e)
      | .ok meta =>
        if meta.msgType = "conversation_initiation_metadata" then
          match meta.conversationId with
          | none => (markFailed store today p, .error .metaKeyErr)
          | some cid =>
            let store1 := update_ai_call_item store today p.callingTo
              (some p.agentId) [("conversation_id", cid)]
            match env.sendConfig with
            | .error e => (markFailed store1 today p, .error e)
            | .ok _ => (store1, .ok ())
        else
          match env.sendConfig with
          | .error e => (markFailed store today p, .error e)
          | .ok _ => (store, .ok ())

/-- C3: whenever `setup_connection` fails — signed-URL negotiation failure,
websocket connect failure, or any handshake/protocol failure (receive
error, malformed metadata, missing conversation id, config-send failure) —
the call record's stage has been set to the failed status in the returned
store, and the original exception is the one re-raised to the caller. -/
theorem c3_setup_failure_marks_failed (env : SetupEnv) (p : CustomParams)
    (store : Store) (today : String) (e : SetupErr)
    (h : (setup_connection env p store today).2 = .error e) :
    stageOf (setup_connection env p store today).1
      ⟨pkOf (some p.agentId) today, p.callingTo⟩ = some CALL_STATUS_call_failed := by
  obtain ⟨su, wc, ri, sc⟩ := env
  rcases su with e1 | u
  · exact stageOf_update_stage store today p.callingTo CALL_STATUS_call_failed (some p.agentId)
  rcases wc with e2 | w
  · exact stageOf_update_stage store today p.callingTo CALL_STATUS_call_failed (some p.agentId)
  rcases ri with e3 | meta
  · exact stageOf_update_stage store today p.callingTo CALL_STATUS_call_failed (some p.agentId)
  obtain ⟨mt, cid⟩ := meta
  dsimp only [setup_connection] at h ⊢
  by_cases hm : mt = "conversation_initiation_metadata"
  · rw [if_pos hm] at h ⊢
    rcases cid with _ | cid
    · exact stageOf_update_stage store today p.callingTo CALL_STATUS_call_failed (some p.agentId)
    rcases sc with e4 | s
    · exact stageOf_update_stage _ today p.callingTo CALL_STATUS_call_failed (some p.agentId)
    · simp at h
  · rw [if_neg hm] at h ⊢
    rcases sc with e4 | s
    · exact stageOf_update_stage store today p.callingTo CALL_STATUS_call_failed (some p.agentId)
    · simp at h

/-- C3 (witness for `c3_setup_failure_marks_failed`): a failing websocket
connect leaves the record marked `failed`. -/
theorem c3_setup_failure_marks_failed_witness :
    stageOf
      (setup_connection
        ⟨.ok "wss://signed", .error .wsConnectErr, .ok ⟨"conversation_initiation_metadata", some "conv1"⟩, .ok ()⟩
        ⟨"+6598765432", "agent1", "take your medicine", "hello"⟩ [] "2026-10-12").1
      ⟨pkOf (some "agent1") "2026-10-12", "+6598765432"⟩ = some CALL_STATUS_call_failed :=
  c3_setup_failure_marks_failed
    ⟨.ok "wss://signed", .error .wsConnectErr, .ok ⟨"conversation_initiation_metadata", some "conv1"⟩, .ok ()⟩
    ⟨"+6598765432", "agent1", "take your medicine", "hello"⟩ [] "2026-10-12"
    .wsConnectErr rfl

/-! ## Base64 (Python `base64.b64encode` / `base64.b64decode`, used by
`ReminderService.handle_media`)

Byte strings are `List Nat` with entries below 256; base64 text is also a
`List Nat` of ASCII codes. -/

/-- ASCII codes of the standard base64 alphabet
`A-Z a-z 0-9 + /` in index order (`=` is the pad, code 61). -/
def b64Alphabet : List Nat :=
  [65, 66, 67, 68, 69, 70, 71, 72, 73, 74, 75, 76, 77, 78, 79, 80, 81, 82,
   83, 84, 85, 86, 87, 88, 89, 90,
   97, 98, 99, 100, 101, 102, 103, 104, 105, 106, 107, 108, 109, 110, 111,
   112, 113, 114, 115, 116, 117, 118, 119, 120, 121, 122,
   48, 49, 50, 51, 52, 53, 54, 55, 56, 57, 43, 47]

/-- Whether an ASCII code belongs to the base64 alphabet. -/
def isB64 (c : Nat) : Bool := b64Alphabet.contains c

/-- The alphabet character (ASCII code) for a six-bit value. -/
def encChar (n : Nat) : Nat := b64Alphabet.getD n 0

/-- The six-bit value of an alphabet character (ASCII code). -/
def sextetOf (c : Nat) : Nat := (b64Alphabet.findIdx? (fun x => x = c)).getD 0

/-- Python `base64.b64encode`: three input bytes become four alphabet
characters; a final group of one or two bytes is padded with `=`
(ASCII 61). -/
def b64encode : List Nat → List Nat
  | a :: b :: c :: rest =>
    encChar (a / 4) :: encChar (a % 4 * 16 + b / 16) ::
      encChar (b % 16 * 4 + c / 64) :: encChar (c % 64) :: b64encode rest
  | [a, b] => [encChar (a / 4), encChar (a % 4 * 16 + b / 16), encChar (b % 16 * 4), 61]
  | [a] => [encChar (a / 4), encChar (a % 4 * 16), 61, 61]
  | [] => []

/-- Recombine a stream of six-bit values into bytes, four sextets to three
bytes, with a trailing group of two or three sextets yielding one or two
bytes (the shape produced by padded base64 input). -/
def b64decodeSextets : List Nat → List Nat
  | s1 :: s2 :: s3 :: s4 :: rest =>
    (s1 * 4 + s2 / 16) :: (s2 % 16 * 16 + s3 / 4) :: (s3 % 4 * 64 + s4) ::
      b64decodeSextets rest
  | [s1, s2, s3] => [s1 * 4 + s2 / 16, s2 % 16 * 16 + s3 / 4]
  | [s1, s2] => [s1 * 4 + s2 / 16]
  | _ => []

/-- Python `base64.b64decode` (non-validating): characters outside the
alphabet — including the `=` padding — are discarded, the remaining
characters are mapped to six-bit values and recombined into bytes. -/
def b64decode (s : List Nat) : List Nat :=
  b64decodeSextets ((s.filter isB64).map sextetOf)

/-- The six-bit slices emitted by `b64encode`, before the alphabet mapping
and padding. -/
def sexts : List Nat → List Nat
  | a :: b :: c :: rest =>
    a / 4 :: (a % 4 * 16 + b / 16) :: (b % 16 * 4 + c / 64) :: c % 64 :: sexts rest
  | [a, b] => [a / 4, a % 4 * 16 + b / 16, b % 16 * 4]
  | [a] => [a / 4, a % 4 * 16]
  | [] => []

theorem isB64_encChar : ∀ n : Fin 64, isB64 (encChar n.val) = true := by decide

theorem sextetOf_encChar : ∀ n : Fin 64, sextetOf (encChar n.val) = n.val := by decide

theorem isB64_pad : isB64 61 = false := by decide

theorem isB64_encChar_of_lt {n : Nat} (h : n < 64) : isB64 (encChar n) = true :=
  isB64_encChar ⟨n, h⟩

theorem sextetOf_encChar_of_lt {n : Nat} (h : n < 64) : sextetOf (encChar n) = n :=
  sextetOf_encChar ⟨n, h⟩

/-- Filtering-and-unmapping the encoded text recovers exactly the six-bit
stream of the input bytes. -/
theorem filter_map_b64encode :
    ∀ bs : List Nat, (∀ x ∈ bs, x < 256) →
      ((b64encode bs).filter isB64).map sextetOf = sexts bs := by
  intro bs h
  induction bs using b64encode.induct with
  | case1 a b c rest ih =>
    have ha : a < 256 := h a (by simp)
    have hb : b < 256 := h b (by simp)
    have hc : c < 256 := h c (by simp)
    have h1 : a / 4 < 64 := by omega
    have h2 : a % 4 * 16 + b / 16 < 64 := by omega
    have h3 : b % 16 * 4 + c / 64 < 64 := by omega
    have h4 : c % 64 < 64 := by omega
    have ih2 := ih (fun x hx => h x (by simp [hx]))
    simp [b64encode, sexts, List.filter_cons,
      isB64_encChar_of_lt h1, isB64_encChar_of_lt h2,
      isB64_encChar_of_lt h3, isB64_encChar_of_lt h4,
      sextetOf_encChar_of_lt h1, sextetOf_encChar_of_lt h2,
      sextetOf_encChar_of_lt h3, sextetOf_encChar_of_lt h4, ih2]
  | case2 a b =>
    have ha : a < 256 := h a (by simp)
    have hb : b < 256 := h b (by simp)
    have h1 : a / 4 < 64 := by omega
    have h2 : a % 4 * 16 + b / 16 < 64 := by omega
    have h3 : b % 16 * 4 < 64 := by omega
    simp [b64encode, sexts, List.filter_cons,
      isB64_encChar_of_lt h1, isB64_encChar_of_lt h2, isB64_encChar_of_lt h3,
      isB64_pad, sextetOf_encChar_of_lt h1, sextetOf_encChar_of_lt h2,
      sextetOf_encChar_of_lt h3]
  | case3 a =>
    have ha : a < 256 := h a (by simp)
    have h1 : a / 4 < 64 := by omega
    have h2 : a % 4 * 16 < 64 := by omega
    simp [b64encode, sexts, List.filter_cons,
      isB64_encChar_of_lt h1, isB64_encChar_of_lt h2, isB64_pad,
      sextetOf_encChar_of_lt h1, sextetOf_encChar_of_lt h2]
  | case4 => rfl

/-- Recombining the six-bit stream of a byte string yields the bytes
back. -/
theorem b64decodeSextets_sexts :
    ∀ bs : List Nat, (∀ x ∈ bs, x < 256) → b64decodeSextets (sexts bs) = bs := by
  intro bs h
  induction bs using sexts.induct with
  | case1 a b c rest ih =>
    have ha : a < 256 := h a (by simp)
    have hb : b < 256 := h b (by simp)
    have hc : c < 256 := h c (by simp)
    have ih2 := ih (fun x hx => h x (by simp [hx]))
    simp only [sexts, b64decodeSextets, ih2, List.cons.injEq, and_true]
    refine ⟨by omega, by omega, by omega⟩
  | case2 a b =>
    have ha : a < 256 := h a (by simp)
    have hb : b < 256 := h b (by simp)
    simp only [sexts, b64decodeSextets, List.cons.injEq, and_true]
    refine ⟨by omega, by omega⟩
  | case3 a =>
    have ha : a < 256 := h a (by simp)
    simp only [sexts, b64decodeSextets, List.cons.injEq, and_true]
    omega
  | case4 => rfl

/-- Round trip: decoding an encoded byte string gives the bytes back. -/
theorem b64decode_b64encode (bs : List Nat) (h : ∀ x ∈ bs, x < 256) :
    b64decode (b64encode bs) = bs := by
  unfold b64decode
  rw [filter_map_b64encode bs h, b64decodeSextets_sexts bs h]

/-! ## Media forwarding (services.py `ReminderService.handle_media`) -/

/-- `ReminderService.handle_media` (services.py lines 329-334): the
`user_audio_chunk` value sent to the voice-AI link is
`base64.b64encode(base64.b64decode(payload))` — decode then re-encode of
the inbound payload. -/
def handle_media_chunk (payload : List Nat) : List Nat :=
  b64encode (b64decode payload)

/-- C8: the forwarded audio payload is a lossless pass-through. For every
inbound payload that is a base64 encoding of a byte sequence, the
decode-then-re-encode round trip performed by `handle_media` yields a
payload byte-identical to the input. -/
theorem c8_media_roundtrip_lossless (bs : List Nat) (h : ∀ x ∈ bs, x < 256) :
    handle_media_chunk (b64encode bs) = b64encode bs := by
  unfold handle_media_chunk
  rw [b64decode_b64encode bs h]

/-- C8 (witness for `c8_media_roundtrip_lossless`): the payload `hey`
(bytes 104 101 121, base64 `aGV5`) passes through unchanged. -/
theorem c8_media_roundtrip_lossless_witness :
    handle_media_chunk (b64encode [104, 101, 121]) = b64encode [104, 101, 121] :=
  c8_media_roundtrip_lossless [104, 101, 121] (by decide)

/-! ## Media-stream websocket loop (api.py `outbound_media_stream`)

The carrier connection delivers a queue of inbound messages; the endpoint
processes them strictly in order in a single read loop, so a message that
arrived while `setup_connection` was still running is handled only after
setup has finished. The fold below runs the loop body over the queue. -/

/-- Outcome of `ReminderService.setup_connection` for one `start` event:
success; a failure re-raised with a class the loop body catches
(`json.JSONDecodeError`, `KeyError`, `RuntimeError`, `ConnectionError` —
the loop continues with the service still assigned and the voice-AI
websocket already connected); or a failure whose class escapes the loop
body (e.g. `websockets` errors), which ends the connection handler. -/
inductive SetupOutcome
  | ok
  | failCaught
  | failFatal
deriving DecidableEq, Repr

/-- The in-memory `ReminderService` session created on `start`
(`to_number`, `stream_sid`, and whether `eleven_labs_ws` is assigned). -/
structure Svc where
  toNumber : String
  streamSid : String
  wsConnected : Bool
deriving DecidableEq, Repr

/-- Inbound carrier messages dispatched on their `event` field. -/
inductive TwilioMsg
  | start (streamSid : String) (callingTo : String)
  | media (payload : List Nat)
  | stop
  | other
deriving DecidableEq, Repr

/-- State of one run of `outbound_media_stream`: the `stream_service`
variable, the audio chunks sent to the voice-AI link so far, how many
sessions were constructed, how many keepalive tasks were spawned, and
whether the loop has ended (by `stop`, a fatal setup error, or an
uncaught exception from `handle_media`). -/
structure LoopState where
  streamService : Option Svc
  forwarded : List (List Nat)
  sessionsCreated : Nat
  keepAliveTasks : Nat
  halted : Bool
  crashed : Bool
deriving DecidableEq, Repr

/-- Initial state of the loop: `stream_service = None`. -/
def initLoopState : LoopState :=
  { streamService := none, forwarded := [], sessionsCreated := 0,
    keepAliveTasks := 0, halted := false, crashed := false }

/-- One iteration of the `outbound_media_stream` read loop (api.py lines
180-210). `start` always constructs a fresh `ReminderService` and runs
setup — there is no already-started check; `media` forwards the
decode/re-encode of the payload whenever `stream_service` is assigned
(an unset `eleven_labs_ws` would make `handle_media` raise and end the
handler); `stop` breaks the loop. `outcomes` gives the setup outcome for
the n-th session. -/
def stepMsg (outcomes : Nat → SetupOutcome) (st : LoopState) (m : TwilioMsg) :
    LoopState :=
  if st.halted then st else
  match m with
  | .start sid callingTo =>
    match outcomes st.sessionsCreated with
    | .ok =>
      { st with streamService := some ⟨callingTo, sid, true⟩,
                sessionsCreated := st.sessionsCreated + 1,
                keepAliveTasks := st.keepAliveTasks + 1 }
    | .failCaught =>
      { st with streamService := some ⟨callingTo, sid, true⟩,
                sessionsCreated := st.sessionsCreated + 1 }
    | .failFatal =>
      { st with streamService := some ⟨callingTo, sid, false⟩,
                sessionsCreated := st.sessionsCreated + 1,
                halted := true }
  | .media p =>
    match st.streamService with
    | some svc =>
      if svc.wsConnected then
        { st with forwarded := st.forwarded ++ [handle_media_chunk p] }
      else
        { st with halted := true, crashed := true }
    | none => st
  | .stop => { st with halted := true }
  | .other => st

/-- Run the media-stream loop over the queued inbound messages. -/
def runMediaStream (outcomes : Nat → SetupOutcome) (msgs : List TwilioMsg) :
    LoopState :=
  msgs.foldl (stepMsg outcomes) initLoopState

theorem foldl_media_no_service (outcomes : Nat → SetupOutcome)
    (ps : List (List Nat)) :
    ∀ st : LoopState, st.streamService = none →
      (ps.map TwilioMsg.media).foldl (stepMsg outcomes) st = st := by
  induction ps with
  | nil => intro st _; rfl
  | cons p rest ih =>
    intro st hsvc
    have hstep : stepMsg outcomes st (.media p) = st := by
      unfold stepMsg
      rw [hsvc]
      split <;> rfl
    simp only [List.map_cons, List.foldl_cons, hstep]
    exact ih st hsvc

theorem foldl_media_active (outcomes : Nat → SetupOutcome)
    (ps : List (List Nat)) :
    ∀ (st : LoopState) (svc : Svc), st.halted = false →
      st.streamService = some svc → svc.wsConnected = true →
      ((ps.map TwilioMsg.media).foldl (stepMsg outcomes) st).forwarded =
        st.forwarded ++ ps.map handle_media_chunk := by
  induction ps with
  | nil => intro st svc _ _ _; simp
  | cons p rest ih =>
    intro st svc hhalt hsvc hws
    have hstep : stepMsg outcomes st (.media p) =
        { st with forwarded := st.forwarded ++ [handle_media_chunk p] } := by
      obtain ⟨ss, fwd, sc, ka, ha, cr⟩ := st
      dsimp only at hhalt hsvc
      subst hhalt hsvc
      simp [stepMsg, hws]
    simp only [List.map_cons, List.foldl_cons, hstep]
    rw [ih { st with forwarded := st.forwarded ++ [handle_media_chunk p] } svc
      hhalt hsvc hws]
    simp

/-- C4 (counterexample): after a `start` event followed immediately by
three `media` events that were already queued before the voice-AI link
became active, all three payloads (here base64 `AA==`, `AQ==`, `Ag==`)
are forwarded to the voice-AI link — none is dropped. -/
theorem c4_media_dropped_cex :
    (runMediaStream (fun _ => .ok)
      [.start "MZ123" "+6598765432",
       .media [65, 65, 61, 61], .media [65, 81, 61, 61],
       .media [65, 103, 61, 61]]).forwarded =
      [[65, 65, 61, 61], [65, 81, 61, 61], [65, 103, 61, 61]] ∧
    ([[65, 65, 61, 61], [65, 81, 61, 61], [65, 103, 61, 61]] :
      List (List Nat)) ≠ [] := by
  constructor
  · decide
  · decide

/-- C4 (amended): the loop has no Active check. A `media` event processed
before any `start` (no session yet) is silently ignored and nothing is
forwarded; but once a `start` has been processed with a successful setup,
every queued `media` payload is forwarded to the voice-AI link — in
particular, media events that arrived during the handshake window are
buffered by the connection and forwarded after setup finishes, not
dropped. -/
theorem c4_media_forwarding (sid callingTo : String) (ps : List (List Nat)) :
    (runMediaStream (fun _ => .ok) (ps.map .media)).forwarded = [] ∧
    (runMediaStream (fun _ => .ok)
        (.start sid callingTo :: ps.map .media)).forwarded =
      ps.map handle_media_chunk := by
  constructor
  · rw [runMediaStream, foldl_media_no_service (fun _ => .ok) ps initLoopState rfl]
    rfl
  · rw [runMediaStream, List.foldl_cons]
    have hstep : stepMsg (fun _ => .ok) initLoopState (.start sid callingTo) =
        { initLoopState with streamService := some ⟨callingTo, sid, true⟩,
                             sessionsCreated := 1, keepAliveTasks := 1 } := rfl
    rw [hstep,
      foldl_media_active (fun _ => .ok) ps _ ⟨callingTo, sid, true⟩ rfl rfl rfl]
    rfl

/-- C9 (counterexample): a second `start` on the same connection is not
ignored: it constructs and installs a second session (the stored stream id
changes from `MZ1` to `MZ2`) and spawns a second keepalive task. -/
theorem c9_second_start_cex :
    (runMediaStream (fun _ => .ok)
        [.start "MZ1" "+6511110000", .start "MZ2" "+6522220000"]).streamService =
      some ⟨"+6522220000", "MZ2", true⟩ ∧
    ("MZ2" : String) ≠ "MZ1" ∧
    (runMediaStream (fun _ => .ok)
        [.start "MZ1" "+6511110000", .start "MZ2" "+6522220000"]).sessionsCreated = 2 := by
  refine ⟨by decide, by decide, by decide⟩

/-- C9 (amended): session initialization is not once-per-connection. A
second `start` event is processed like the first: it constructs a fresh
session from the new stream id and parameters, replaces the existing one
without tearing it down, runs setup again, and spawns another keepalive
task; it is not rejected as a protocol violation. -/
theorem c9_second_start_replaces (sid1 n1 sid2 n2 : String) :
    (runMediaStream (fun _ => .ok) [.start sid1 n1, .start sid2 n2]).streamService =
      some ⟨n2, sid2, true⟩ ∧
    (runMediaStream (fun _ => .ok) [.start sid1 n1, .start sid2 n2]).sessionsCreated = 2 ∧
    (runMediaStream (fun _ => .ok) [.start sid1 n1, .start sid2 n2]).keepAliveTasks = 2 :=
  ⟨rfl, rfl, rfl⟩

/-! ## Keepalive loop and teardown (services.py `keep_alive`, `cleanup`) -/

/-- View of `self.eleven_labs_ws` as seen by one keepalive iteration:
not assigned, assigned but closed, open with a succeeding send, or open
with a send that raises. -/
inductive WsView
  | unset
  | closed
  | openOk
  | openSendErr
deriving DecidableEq, Repr

/-- What one iteration of the `while True` body of `keep_alive` does. -/
inductive KeepIter
  | sentPingSleep (seconds : Nat)
  | idleSpin
  | exitLoop
deriving DecidableEq, Repr

/-- One iteration of `ReminderService.keep_alive` (services.py lines
261-271): when the websocket is assigned and not closed, send a ping and
sleep 30 seconds; when it is unset or closed, the guard fails and the body
does nothing — the loop neither sends, sleeps, nor terminates; only a
raising send breaks the loop. -/
def keep_alive_iteration : WsView → KeepIter
  | .unset => .idleSpin
  | .closed => .idleSpin
  | .openOk => .sentPingSleep 30
  | .openSendErr => .exitLoop

/-- The teardown actions available to `ReminderService.cleanup`. -/
inductive CleanupAct
  | closeAiWs
  | cancelDispatchTask
  | awaitDispatchTask
  | cancelKeepAliveTask
deriving DecidableEq, Repr

/-- `ReminderService.cleanup` (services.py lines 336-348): when
`eleven_labs_ws` is assigned, close it (only if a conversation id was
recorded) and cancel and await `eleven_labs_task` (the dispatch task, if
assigned). The keepalive task was spawned fire-and-forget in api.py line
196 and its handle is never stored, so no action on it is possible. -/
def cleanup (hasWs hasConvId hasDispatchTask : Bool) : List CleanupAct :=
  if hasWs then
    (if hasConvId then [.closeAiWs] else []) ++
      (if hasDispatchTask then [.cancelDispatchTask, .awaitDispatchTask] else [])
  else []

/-- C5 (counterexample): when the voice-AI websocket is closed, a
keepalive iteration neither sends nor exits the loop — the loop does not
terminate on close; and a full teardown (websocket, conversation id and
dispatch task all present) performs no cancellation of the keepalive
task. -/
theorem c5_keepalive_cex :
    keep_alive_iteration .closed = .idleSpin ∧
    KeepIter.idleSpin ≠ KeepIter.exitLoop ∧
    CleanupAct.cancelKeepAliveTask ∉ cleanup true true true := by
  refine ⟨rfl, by decide, by decide⟩

/-- C5 (amended): while the link is open and sends succeed, each keepalive
iteration sends a ping and then sleeps 30 seconds; the loop exits only when
a send raises; when the link is unset or closed the iteration does nothing
and the loop keeps spinning instead of terminating. Session teardown closes
the voice-AI link and cancels and awaits the dispatch task, but never
cancels the keepalive task (its handle is not retained). -/
theorem c5_keepalive_behavior :
    (∀ w : WsView, keep_alive_iteration w = .exitLoop ↔ w = .openSendErr) ∧
    (∀ w : WsView, keep_alive_iteration w = .sentPingSleep 30 ↔ w = .openOk) ∧
    (∀ hasWs hasConvId hasDispatchTask : Bool,
      CleanupAct.cancelKeepAliveTask ∉ cleanup hasWs hasConvId hasDispatchTask) := by
  refine ⟨fun w => ?_, fun w => ?_, fun b1 b2 b3 => ?_⟩
  · cases w <;> simp [keep_alive_iteration]
  · cases w <;> simp [keep_alive_iteration]
  · cases b1 <;> cases b2 <;> cases b3 <;> decide

/-- C5 (witness for `c5_keepalive_behavior`): an open link with a
succeeding send yields exactly a ping followed by a 30-second sleep. -/
theorem c5_keepalive_behavior_witness :
    keep_alive_iteration .openOk = .sentPingSleep 30 :=
  (c5_keepalive_behavior.2.1 .openOk).mpr rfl

/-! ## Status-callback endpoint (api.py `outbound_call_status`) -/

/-- Exception classes relevant to the callback path: the three classes
named in the `except` clauses of `outbound_call_status` and
`handle_call_status`, and everything else. -/
inductive PyExc
  | valueError
  | runtimeError
  | connectionError
  | otherExc
deriving DecidableEq, Repr

/-- Whether an exception class is caught by
`except (ValueError, RuntimeError, ConnectionError)` — the clause used both
in `handle_call_status` (services.py line 258) and in the endpoint
(api.py line 72). -/
def caughtByStatusHandlers : PyExc → Bool
  | .valueError => true
  | .runtimeError => true
  | .connectionError => true
  | .otherExc => false

/-- Python falsiness of a form field: `None` (absent) or the empty
string. -/
def falsyOpt : Option String → Bool
  | none => true
  | some s => decide (s = "")

/-- The exception escaping `ReminderService.handle_call_status` when the
repository update raises `repoOutcome`: the three named classes are caught
and logged there, anything else propagates. -/
def handle_call_status_outcome (repoOutcome : Option PyExc) : Option PyExc :=
  match repoOutcome with
  | none => none
  | some e => if caughtByStatusHandlers e then none else some e

/-- `outbound_call_status` (api.py lines 39-75): read the `To`,
`CallStatus`, `ToCountry` form fields; when any is falsy (absent or
empty), return 400; otherwise run `handle_call_status` and return 200,
with the endpoint's own `except (ValueError, RuntimeError,
ConnectionError)` also answering 200; an exception of any other class
escapes the handler and surfaces as the framework's 500. The result is
the HTTP status code. -/
def outbound_call_status (toField callStatusField toCountryField : Option String)
    (repoOutcome : Option PyExc) : Nat :=
  if falsyOpt toField || falsyOpt callStatusField || falsyOpt toCountryField then 400
  else
    match handle_call_status_outcome repoOutcome with
    | none => 200
    | some e => if caughtByStatusHandlers e then 200 else 500

/-- C6 (counterexample): a request whose `To` field is present but empty —
no required field is absent from the form — is answered with 400, so 400
is not returned only on entirely absent fields. -/
theorem c6_badrequest_cex :
    outbound_call_status (some "") (some "completed") (some "SG") none = 400 ∧
    (some "" : Option String) ≠ none ∧
    (some "completed" : Option String) ≠ none ∧
    (some "SG" : Option String) ≠ none := by
  refine ⟨by decide, by decide, by decide, by decide⟩

/-- C6 (amended): the endpoint returns 400 exactly when a required field
(`To`, `CallStatus`, `ToCountry`) is falsy — absent or present-but-empty.
When all three are non-empty it returns 200, including when internal
processing raises any of the caught classes `ValueError`, `RuntimeError`,
`ConnectionError`; an internal exception of any other class escapes the
handler as a 500 server error. -/
theorem c6_response_codes (toField callStatusField toCountryField : Option String)
    (repoOutcome : Option PyExc) :
    (outbound_call_status toField callStatusField toCountryField repoOutcome = 400 ↔
      (falsyOpt toField || falsyOpt callStatusField || falsyOpt toCountryField) = true) ∧
    ((falsyOpt toField || falsyOpt callStatusField || falsyOpt toCountryField) = false →
      (outbound_call_status toField callStatusField toCountryField repoOutcome = 200 ↔
        repoOutcome ≠ some .otherExc) ∧
      (repoOutcome = some .otherExc →
        outbound_call_status toField callStatusField toCountryField repoOutcome = 500)) := by
  by_cases h : (falsyOpt toField || falsyOpt callStatusField || falsyOpt toCountryField) = true
  · refine ⟨by simp [outbound_call_status, h], fun hf => absurd h (by simp [hf])⟩
  · have hf : (falsyOpt toField || falsyOpt callStatusField || falsyOpt toCountryField) = false := by
      revert h
      cases falsyOpt toField || falsyOpt callStatusField || falsyOpt toCountryField <;> simp
    refine ⟨?_, fun _ => ⟨?_, ?_⟩⟩
    · rcases repoOutcome with _ | e
      · simp [outbound_call_status, handle_call_status_outcome, hf]
      · cases e <;>
          simp [outbound_call_status, handle_call_status_outcome, caughtByStatusHandlers, hf]
    · rcases repoOutcome with _ | e
      · simp [outbound_call_status, handle_call_status_outcome, hf]
      · cases e <;>
          simp [outbound_call_status, handle_call_status_outcome, caughtByStatusHandlers, hf]
    · intro hr
      subst hr
      simp [outbound_call_status, handle_call_status_outcome, caughtByStatusHandlers, hf]

/-- C6 (witness for `c6_response_codes`): a complete callback whose
processing succeeds is answered with 200. -/
theorem c6_response_codes_witness :
    outbound_call_status (some "+6598765432") (some "no-answer") (some "SG") none = 200 :=
  ((c6_response_codes (some "+6598765432") (some "no-answer") (some "SG") none).2
    (by decide)).1.mpr (by decide)

/-! ## Voice-AI message dispatch (services.py `_process_message`) -/

/-- A parsed message from the voice-AI link: its `type` tag, the
`ping_event.event_id` if present, and the `audio_event.audio_base_64`
payload if present. -/
structure AiMsg where
  msgType : String
  pingEventId : Option String
  audioB64 : Option (List Nat)
deriving DecidableEq, Repr

/-- Observable side effects of dispatching one voice-AI message: a `pong`
sent back on the voice-AI connection, an audio or clear frame sent to the
telephony connection, or a record-store write. -/
inductive AiEffect
  | pongToAi (eventId : String)
  | audioToTwilio (payload : List Nat)
  | clearToTwilio
  | storeWrite (field value : String)
deriving DecidableEq, Repr

/-- `ReminderService._handle_ping` (services.py lines 237-240): when
`msg.get("ping_event", {}).get("event_id")` is truthy, send a single
`pong` carrying the same event id on the voice-AI connection; otherwise do
nothing. -/
def handle_ping (m : AiMsg) : List AiEffect :=
  match m.pingEventId with
  | some eid => if eid ≠ "" then [.pongToAi eid] else []
  | none => []

/-- `ReminderService._handle_audio_message` (services.py lines 213-231):
forward a truthy base64 payload to the telephony connection; a missing or
falsy payload is logged and dropped. -/
def handle_audio (m : AiMsg) : List AiEffect :=
  match m.audioB64 with
  | some p => if p ≠ [] then [.audioToTwilio p] else []
  | none => []

/-- `ReminderService._process_message` (services.py lines 188-210): look
up the handler for the message's `type` tag; `error` and
`conversation_started` only log, unrecognized tags are ignored. The result
is the list of emitted side effects. -/
def process_message (m : AiMsg) : List AiEffect :=
  if m.msgType = "audio" then handle_audio m
  else if m.msgType = "interruption" then [.clearToTwilio]
  else if m.msgType = "ping" then handle_ping m
  else if m.msgType = "error" then []
  else if m.msgType = "conversation_started" then []
  else []

/-- C7: dispatching an inbound `ping` message that carries an event id
produces exactly one `pong` carrying the same event id on the voice-AI
connection, and no other side effect — no record-store write and no
message to the telephony link. -/
theorem c7_ping_pong (m : AiMsg) (eid : String) (h1 : m.msgType = "ping")
    (h2 : m.pingEventId = some eid) (h3 : eid ≠ "") :
    process_message m = [.pongToAi eid] := by
  simp [process_message, handle_ping, h1, h2, h3]

/-- C7 (witness for `c7_ping_pong`): a `ping` with event id `abc123`
yields exactly one `pong` with event id `abc123`. -/
theorem c7_ping_pong_witness :
    process_message ⟨"ping", some "abc123", none⟩ = [.pongToAi "abc123"] :=
  c7_ping_pong ⟨"ping", some "abc123", none⟩ "abc123" rfl rfl (by decide)

/-! ## List-records endpoint (api.py `get_ai_calling_records`) -/

/-- `CallRepository.get_calls_by_date` (repositories.py lines 148-183):
all items of the partition `AICalling#{agent_id}#{date}`. -/
def get_calls_by_date (store : Store) (date agentId : String) : List Attrs :=
  (store.filter (fun e => decide (e.1.pk = pkOf (some agentId) date))).map
    (fun e => e.2)

/-- `ReminderService.get_ai_calling_records_service` (services.py lines
159-173): declared with exactly the two parameters `date` and `agent_id`
besides `self`, and delegating to `get_calls_by_date`. -/
def get_ai_calling_records_service (store : Store) (date agentId : String) :
    List Attrs :=
  get_calls_by_date store date agentId

/-- Result of a dynamic Python method call: the value, or the `TypeError`
raised at call time when the number of positional arguments does not match
the method's parameter list. -/
inductive PyCall (α : Type)
  | ok (value : α)
  | typeError

/-- Calling `get_ai_calling_records_service` with a list of positional
arguments: the method accepts exactly two; any other arity raises
`TypeError` before the body runs. -/
def call_records_service_method (store : Store) (args : List String) :
    PyCall (List Attrs) :=
  match args with
  | [date, agentId] => .ok (get_ai_calling_records_service store date agentId)
  | _ => .typeError

/-- `get_ai_calling_records` (api.py lines 23-37): the handler invokes the
service method with the three positional arguments `country_code`, `date`,
`agent_id`; its `except Exception` turns any error into an HTTP 500
(`HTTPException`). The result is either the record list or the error
status code. -/
def get_ai_calling_records_endpoint (store : Store)
    (countryCode date agentId : String) : Except Nat (List Attrs) :=
  match call_records_service_method store [countryCode, date, agentId] with
  | .ok records => .ok records
  | .typeError => .error 500

/-- C10: for every request to the list-records endpoint, the three-argument
invocation of the two-parameter service method raises `TypeError`, so the
endpoint always answers HTTP 500 and never returns a record list. -/
theorem c10_records_endpoint_always_500 (store : Store)
    (countryCode date agentId : String) :
    get_ai_calling_records_endpoint store countryCode date agentId = .error 500 :=
  rfl

end IntelligentReminder
